import Mathlib

/-!
Shallow embedding of the request-handling and formatting layer of a
Telegram MCP (tool-calling) server, together with theorems checking the
specification's claims against the translated code.

The embedding follows the TypeScript source:
  * `src/telegram/client.ts`   — the `TelegramClient` wrapper around the
    external tdlib client (modelled as an oracle record `ClientEnv`);
  * `src/handlers/ChatHandler.ts`, `src/handlers/MessageHandler.ts` — tool
    handlers (validation, client invocation, text rendering);
  * `src/schemas/index.ts`     — zod input schemas;
  * `src/utils/ErrorHandler.ts` — the error classifier;
  * `src/index.ts`             — the tool dispatcher.

JavaScript-specific behaviour (truthiness of `||` and `!!`, `parseInt`,
`String.prototype.includes`, `toLowerCase`) is modelled by the `js*`
helpers below.  Numbers are modelled by `Int` (all values relevant to the
claims are integers); `toLowerCase` is modelled on the ASCII range, which
covers every string the claims mention.  Asynchrony is irrelevant to the
claims (all awaits are sequential), so calls are modelled as pure
functions; a `try`/`catch`-able failure is a `JsResult.exn` carrying the
thrown error's message.  Handlers additionally return the ordered list of
`TelegramClient` method calls they performed, mirroring what the
repository's jest mocks observe.
-/

/-- Result of a JavaScript call that may throw: either a value or the
thrown error's message (`client.ts` rethrows errors after logging, so the
message is all that crosses the boundary). -/
inductive JsResult (α : Type) where
  | ok (value : α)
  | exn (message : String)
deriving DecidableEq, Repr

/-- True when the call threw. -/
def JsResult.isThrown : JsResult α → Bool
  | .ok _ => false
  | .exn _ => true

/-- Forget the thrown message (used to state "failures are skipped"). -/
def JsResult.toOption : JsResult α → Option α
  | .ok v => some v
  | .exn _ => none

/-- JS `a || d` on a possibly-absent number: `undefined` and `0` are falsy. -/
def jsOrOptInt (o : Option Int) (d : Int) : Int :=
  match o with
  | none => d
  | some v => if v != 0 then v else d

/-- JS `a || b` on numbers: `0` is falsy. -/
def jsOrInt (a b : Int) : Int := if a != 0 then a else b

/-- JS `!!x` on a possibly-absent number: `undefined` and `0` are falsy. -/
def jsTruthyNum (o : Option Int) : Bool :=
  match o with
  | none => false
  | some v => v != 0

/-- JS `s || d` on a possibly-absent string: `undefined` and `""` are falsy. -/
def jsOrOptStr (o : Option String) (d : String) : String :=
  match o with
  | none => d
  | some s => if s ≠ "" then s else d

/-- Does `needle` occur at the head of `hay`? (helper for `jsIncludes`). -/
def subAt : List Char → List Char → Bool
  | [], _ => true
  | _ :: _, [] => false
  | a :: as, b :: bs => a == b && subAt as bs

/-- Does `needle` occur anywhere in `hay`? (helper for `jsIncludes`). -/
def subSearch (needle : List Char) : List Char → Bool
  | [] => subAt needle []
  | c :: rest => subAt needle (c :: rest) || subSearch needle rest

/-- JS `hay.includes(needle)`. -/
def jsIncludes (hay needle : String) : Bool := subSearch needle.data hay.data

/-- JS `s.toLowerCase()` restricted to ASCII case mapping (`Char.toLower`),
which covers every string appearing in the claims. -/
def jsToLowerCase (s : String) : String := String.mk (s.data.map Char.toLower)

/-- Decimal digits of a JS number literal string (helper for `parseIntStr`). -/
def parseDigits : List Char → Nat → Nat
  | [], acc => acc
  | c :: cs, acc => if c.isDigit then parseDigits cs (10 * acc + (c.toNat - 48)) else acc

/-- JS `parseInt(s)` on canonical decimal integer strings — the only shape
the code feeds it: chat ids produced by `id.toString()`.  (`NaN` handling
for malformed strings is irrelevant to the claims.) -/
def parseIntStr (s : String) : Int :=
  match s.data with
  | '-' :: rest => -(Int.ofNat (parseDigits rest 0))
  | cs => Int.ofNat (parseDigits cs 0)

/-- The five chat type variants of `ChatInfo['type']` (`telegram/types.ts`). -/
inductive ChatType where
  | «private»
  | group
  | supergroup
  | channel
  | secret
deriving DecidableEq, Repr

/-- Raw `chat.type` object from tdlib: discriminator `_` (here `tag`), the
`is_channel` flag of `chatTypeSupergroup`, and the `username` field the
code probes on it. -/
structure RawChatType where
  tag : String
  is_channel : Bool
  username : Option String
deriving DecidableEq, Repr

/-- Raw tdlib chat record, with the fields `formatChatInfo` reads. -/
structure RawChat where
  id : Int
  title : Option String
  type : Option RawChatType
  member_count : Option Int
  description : Option String
deriving DecidableEq, Repr

/-- Model of `ChatInfo` from `telegram/types.ts` (the trust flags `isVerified`,
`isScam`, `isFake` are never assigned by `formatChatInfo` and are omitted). -/
structure ChatInfo where
  id : String
  title : String
  type : ChatType
  username : Option String
  memberCount : Option Int
  description : Option String
deriving DecidableEq, Repr

/-- Raw `message.sender_id` object (`messageSenderUser` / `messageSenderChat`):
the code probes `user_id` and falls back to `chat_id`. -/
structure RawSender where
  user_id : Option Int
  chat_id : Option Int
deriving DecidableEq, Repr

/-- Raw `message.content`, as the tagged union the duck-typed probes of
`formatMessageInfo` distinguish; each variant carries the caption field the
code reads on it.  The file-descriptor payloads (sizes, dimensions,
durations) are not modelled: no claim depends on them. -/
inductive RawContent where
  | noContent
  | text (t : String)
  | photo (caption : Option String)
  | video (caption : Option String)
  | document (caption : Option String)
  | audio (caption : Option String)
  | voiceNote
  | sticker
  | animation (caption : Option String)
deriving DecidableEq, Repr

/-- Raw tdlib message record, with the fields `formatMessageInfo`,
`getMessageContext` and `buildReplyChain` read.  `reply_to_message_id` and
`message_thread_id` are plain numbers in tdlib, `0` meaning absent (the
code tests them by JS truthiness); `edit_date` may additionally be absent.
`forward_info` is not modelled: no claim depends on it. -/
structure RawMessage where
  id : Int
  date : Int
  is_outgoing : Bool
  edit_date : Option Int
  can_be_edited : Bool
  can_be_deleted_only_for_self : Bool
  can_be_deleted_for_all_users : Bool
  sender_id : Option RawSender
  content : RawContent
  reply_to_message_id : Int
  message_thread_id : Int
deriving DecidableEq, Repr

/-- Model of `MessageInfo` from `telegram/types.ts`, restricted to the fields
`formatMessageInfo` assigns and the claims mention (`mediaInfo`,
`forwardedFrom` and `senderName` are omitted along with their raw inputs). -/
structure MessageInfo where
  id : Int
  chatId : String
  senderId : Option String
  text : Option String
  date : Int
  isOutgoing : Bool
  isEdited : Bool
  editDate : Option Int
  canBeEdited : Bool
  canBeDeleted : Bool
  replyToMessageId : Option Int
  mediaType : Option String
  mediaCaption : Option String
deriving DecidableEq, Repr

/-- Model of `MessageContext` from `telegram/types.ts`. -/
structure MessageContext where
  message : MessageInfo
  replyChain : List MessageInfo
  thread : Option (List MessageInfo)
deriving DecidableEq, Repr

/-- Model of `SearchResult` from `telegram/types.ts`. -/
structure SearchResult where
  messages : List MessageInfo
  totalCount : Int
deriving DecidableEq, Repr

/-- Raw result of a tdlib `searchChatMessages` invocation. -/
structure RawSearchRes where
  messages : List RawMessage
  total_count : Int
deriving DecidableEq, Repr

/-- Raw result of a tdlib `getMe` invocation. -/
structure RawUser where
  id : Int
  first_name : String
  last_name : Option String
  username : Option String
deriving DecidableEq, Repr

/-- Return shape of `TelegramClient.getMe`. -/
structure GetMeResult where
  id : Int
  firstName : String
  lastName : Option String
  username : Option String
deriving DecidableEq, Repr

/-- Oracle for the external tdlib client (`this.client.invoke` calls),
keyed exactly as the code keys its invocations.  Each field may throw. -/
structure ClientEnv where
  /-- Model of `getChats` invocation: `limit ↦ chat_ids`. -/
  chatIds : Int → JsResult (List Int)
  /-- Model of `getChat` invocation: `chat_id ↦ chat`. -/
  chat : Int → JsResult RawChat
  /-- Model of `getMe` invocation. -/
  me : JsResult RawUser
  /-- Model of `getChatHistory` invocation: `chat_id, from_message_id, limit ↦ messages`. -/
  history : Int → Int → Int → JsResult (List RawMessage)
  /-- Model of `searchChatMessages` invocation: `chat_id, query, limit ↦ result`. -/
  searchChat : Int → String → Int → JsResult RawSearchRes
  /-- Model of `getMessage` invocation: `chat_id, message_id ↦ message`. -/
  message : Int → Int → JsResult RawMessage
  /-- Model of `getMessageThread` invocation: `chat_id, message_id ↦ messages`. -/
  thread : Int → Int → JsResult (List RawMessage)

/-- Model of `client.ts` `getChatType`: the `switch` over `type?._`; an
unrecognized tag (and an absent `type`, for which `switch(undefined)`
falls to `default`) maps to `private`; `chatTypeSupergroup` splits on
`is_channel`. -/
def TelegramClient.getChatType (type : Option RawChatType) : ChatType :=
  match type with
  | none => ChatType.«private»
  | some t =>
    if t.tag = "chatTypePrivate" then ChatType.«private»
    else if t.tag = "chatTypeBasicGroup" then ChatType.group
    else if t.tag = "chatTypeSupergroup" then
      (if t.is_channel then ChatType.channel else ChatType.supergroup)
    else if t.tag = "chatTypeSecret" then ChatType.secret
    else ChatType.«private»

/-- Model of `client.ts` `formatChatInfo`: translate a raw chat record into a
`ChatInfo`, with the conditional field assignments guarded by JS
truthiness as in the source. -/
def TelegramClient.formatChatInfo (chat : RawChat) : ChatInfo :=
  let info : ChatInfo :=
    { id := toString chat.id
      title := jsOrOptStr chat.title "Unknown"
      type := TelegramClient.getChatType chat.type
      username := none
      memberCount := none
      description := none }
  let tagOf : Option RawChatType → Option String := fun t => t.map (·.tag)
  let info :=
    if tagOf chat.type = some "chatTypePrivate" ∨ tagOf chat.type = some "chatTypeSecret" then
      { info with title := jsOrOptStr chat.title "Private Chat" }
    else info
  let info :=
    match chat.type with
    | some t =>
      match t.username with
      | some u => if u ≠ "" then { info with username := some u } else info
      | none => info
    | none => info
  let info :=
    if jsTruthyNum chat.member_count then { info with memberCount := chat.member_count }
    else info
  let info :=
    match chat.description with
    | some d => if d ≠ "" then { info with description := some d } else info
    | none => info
  info

/-- Model of `client.ts` `formatMessageInfo`: translate a raw message record into a
`MessageInfo`.  `isEdited := !!message.edit_date`; `editDate` copies the
raw field; `canBeDeleted` ors the two raw deletion flags; the conditional
assignments (`senderId`, `text`, `replyToMessageId`, media fields) follow
the source's truthiness guards and probe order. -/
def TelegramClient.formatMessageInfo (message : RawMessage) (chatId : String) : MessageInfo :=
  { id := message.id
    chatId := chatId
    date := message.date
    isOutgoing := message.is_outgoing
    isEdited := jsTruthyNum message.edit_date
    editDate := message.edit_date
    canBeEdited := message.can_be_edited
    canBeDeleted := message.can_be_deleted_only_for_self || message.can_be_deleted_for_all_users
    senderId :=
      match message.sender_id with
      | none => none
      | some s =>
        match s.user_id with
        | some uid => some (toString uid)
        | none => s.chat_id.map toString
    text :=
      match message.content with
      | .text t => if t ≠ "" then some t else none
      | _ => none
    replyToMessageId :=
      if message.reply_to_message_id ≠ 0 then some message.reply_to_message_id else none
    mediaType :=
      match message.content with
      | .photo _ => some "photo"
      | .video _ => some "video"
      | .document _ => some "document"
      | .audio _ => some "audio"
      | .voiceNote => some "voice"
      | .sticker => some "sticker"
      | .animation _ => some "animation"
      | _ => none
    mediaCaption :=
      match message.content with
      | .photo c => c
      | .video c => c
      | .document c => c
      | .audio c => c
      | .animation c => c
      | _ => none }

/-- Model of `client.ts` `getChats`, inner `for` loop: fetch each chat's detail
record; a failing `getChat` is caught, logged and skipped (`continue`),
the successful ones are pushed in order. -/
def TelegramClient.getChatsLoop (env : ClientEnv) : List Int → List ChatInfo
  | [] => []
  | chatId :: rest =>
    match env.chat chatId with
    | .exn _ => TelegramClient.getChatsLoop env rest
    | .ok chat => TelegramClient.formatChatInfo chat :: TelegramClient.getChatsLoop env rest

/-- Model of `client.ts` `getChats`: fetch the chat id list (a failure here is
rethrown by the outer `catch`), then resolve details via `getChatsLoop`. -/
def TelegramClient.getChats (env : ClientEnv) (limit : Int) : JsResult (List ChatInfo) :=
  match env.chatIds limit with
  | .exn m => .exn m
  | .ok chatIds => .ok (TelegramClient.getChatsLoop env chatIds)

/-- Model of `client.ts` `getMe`: fetch the account record and reshape it. -/
def TelegramClient.getMe (env : ClientEnv) : JsResult GetMeResult :=
  match env.me with
  | .exn m => .exn m
  | .ok me =>
    .ok { id := me.id, firstName := me.first_name, lastName := me.last_name,
          username := me.username }

/-- Model of `client.ts` `getMessages`: `getChatHistory` with
`from_message_id := fromMessageId || 0`, each raw message formatted. -/
def TelegramClient.getMessages (env : ClientEnv) (chatId : String) (limit : Int)
    (fromMessageId : Option Int) : JsResult (List MessageInfo) :=
  match env.history (parseIntStr chatId) (jsOrOptInt fromMessageId 0) limit with
  | .exn m => .exn m
  | .ok messages => .ok (messages.map (TelegramClient.formatMessageInfo · chatId))

/-- Model of `client.ts` `searchMessages`, unscoped branch, inner `for` loop over
the first 10 recent chats: each per-chat search is capped at
`Math.min(limit, 10)`; a throwing per-chat search is caught and skipped
(`continue`); matches are appended and `totalFound` accumulates
`total_count || chatMessages.length`; the loop breaks once
`allMessages.length >= limit`. -/
def TelegramClient.globalSearchLoop (env : ClientEnv) (query : String) (limit : Int) :
    List ChatInfo → List MessageInfo → Int → List MessageInfo × Int
  | [], allMessages, totalFound => (allMessages, totalFound)
  | chat :: rest, allMessages, totalFound =>
    match env.searchChat (parseIntStr chat.id) query (min limit 10) with
    | .exn _ => TelegramClient.globalSearchLoop env query limit rest allMessages totalFound
    | .ok chatResult =>
      let chatMessages := chatResult.messages.map (TelegramClient.formatMessageInfo · chat.id)
      let allMessages2 := allMessages ++ chatMessages
      let totalFound2 := totalFound + jsOrInt chatResult.total_count (chatMessages.length : Int)
      if (allMessages2.length : Int) ≥ limit then (allMessages2, totalFound2)
      else TelegramClient.globalSearchLoop env query limit rest allMessages2 totalFound2

/-- Model of `client.ts` `searchMessages`: scoped mode is a single
`searchChatMessages` call with `totalCount := total_count || length`;
unscoped mode fetches the 20 most recent chats, runs `globalSearchLoop`
over the first 10 of them, and returns `allMessages.slice(0, limit)`. -/
def TelegramClient.searchMessages (env : ClientEnv) (query : String) (chatId : Option String)
    (limit : Int) : JsResult SearchResult :=
  match chatId with
  | some cid =>
    match env.searchChat (parseIntStr cid) query limit with
    | .exn m => .exn m
    | .ok result =>
      .ok { messages := result.messages.map (TelegramClient.formatMessageInfo · cid)
            totalCount := jsOrInt result.total_count (result.messages.length : Int) }
  | none =>
    match TelegramClient.getChats env 20 with
    | .exn m => .exn m
    | .ok chats =>
      let res := TelegramClient.globalSearchLoop env query limit (chats.take 10) [] 0
      .ok { messages := res.1.take limit.toNat, totalCount := res.2 }

/-- Model of `client.ts` `buildReplyChain`: recursive upward walk over reply
pointers.  The guard `if (depth > 10) return []` stops the walk; a
failing `getMessage` is caught and yields the empty tail (so the caller
keeps the partial chain accumulated so far). -/
def TelegramClient.buildReplyChain (env : ClientEnv) (chatId : String)
    (replyToMessageId : Int) (depth : Nat) : List MessageInfo :=
  if _h : depth > 10 then []
  else
    match env.message (parseIntStr chatId) replyToMessageId with
    | .exn _ => []
    | .ok replyMessage =>
      let formattedReply := TelegramClient.formatMessageInfo replyMessage chatId
      if replyMessage.reply_to_message_id ≠ 0 then
        formattedReply ::
          TelegramClient.buildReplyChain env chatId replyMessage.reply_to_message_id (depth + 1)
      else [formattedReply]
termination_by 11 - depth
decreasing_by omega

/-- Fuel-indexed restatement of `buildReplyChain` used for computation:
`buildReplyChainFuel env c id (11 - depth) = buildReplyChain env c id depth`
(proved below); the fuel counts the remaining admissible recursion depth. -/
def buildReplyChainFuel (env : ClientEnv) (chatId : String) : Int → Nat → List MessageInfo
  | _, 0 => []
  | replyToMessageId, fuel + 1 =>
    match env.message (parseIntStr chatId) replyToMessageId with
    | .exn _ => []
    | .ok replyMessage =>
      let formattedReply := TelegramClient.formatMessageInfo replyMessage chatId
      if replyMessage.reply_to_message_id ≠ 0 then
        formattedReply :: buildReplyChainFuel env chatId replyMessage.reply_to_message_id fuel
      else [formattedReply]

/-- Model of `client.ts` `getThreadMessages`: fetch the thread's messages; a
failure yields the empty list, not an error. -/
def TelegramClient.getThreadMessages (env : ClientEnv) (chatId : String)
    (messageThreadId : Int) : List MessageInfo :=
  match env.thread (parseIntStr chatId) messageThreadId with
  | .exn _ => []
  | .ok threadMessages => threadMessages.map (TelegramClient.formatMessageInfo · chatId)

/-- Model of `client.ts` `getMessageContext`: fetch and format the target message
(a failure here is rethrown); if requested and the message has a reply
pointer, build the reply chain starting at depth 0; if requested and the
message has a thread id, fetch the thread. -/
def TelegramClient.getMessageContext (env : ClientEnv) (chatId : String) (messageId : Int)
    (includeReplies includeThread : Bool) : JsResult MessageContext :=
  match env.message (parseIntStr chatId) messageId with
  | .exn m => .exn m
  | .ok message =>
    let formattedMessage := TelegramClient.formatMessageInfo message chatId
    let replyChain :=
      if includeReplies && message.reply_to_message_id ≠ 0 then
        TelegramClient.buildReplyChain env chatId message.reply_to_message_id 0
      else []
    let thread :=
      if includeThread && message.message_thread_id ≠ 0 then
        some (TelegramClient.getThreadMessages env chatId message.message_thread_id)
      else none
    .ok { message := formattedMessage, replyChain := replyChain, thread := thread }

/-- The ancestor ids reachable from `id` by following reply pointers, up
to `fuel` steps: the walk stops at a failing fetch or at a message with no
reply pointer.  `(replyAncestors env c id k).length = k` states that the
reply-to chain starting at `id` contains at least `k` fetchable ancestors. -/
def replyAncestors (env : ClientEnv) (chatId : Int) : Int → Nat → List Int
  | _, 0 => []
  | id, fuel + 1 =>
    match env.message chatId id with
    | .exn _ => []
    | .ok m =>
      id :: (if m.reply_to_message_id ≠ 0 then replyAncestors env chatId m.reply_to_message_id fuel
             else [])

/-- Length of the reply chain of a successfully built message context. -/
def replyChainLength : JsResult MessageContext → Option Nat
  | .ok ctx => some ctx.replyChain.length
  | .exn _ => none

/-- MCP protocol error codes used by the source (`ErrorCode` from the MCP
SDK, restricted to the four kinds the code produces). -/
inductive ErrorCode where
  | invalidParams
  | invalidRequest
  | internalError
  | methodNotFound
deriving DecidableEq, Repr

/-- Model of `McpError` as constructed by the source: an error code plus message. -/
structure McpError where
  code : ErrorCode
  message : String
deriving DecidableEq, Repr

/-- One entry of `ZodError.errors`: a field path and a message. -/
structure ZodIssue where
  path : List String
  message : String
deriving DecidableEq, Repr

/-- A `ZodError` value: the list of all violated-field issues. -/
structure ZodErrorData where
  errors : List ZodIssue
deriving DecidableEq, Repr

/-- The classes of thrown values `ErrorHandler.handleError` distinguishes
with `instanceof`: an `McpError`, a `ZodError`, any other `Error` (of
which only the message is inspected), or a non-`Error` value. -/
inductive ThrownValue where
  | mcpError (e : McpError)
  | zodError (e : ZodErrorData)
  | jsError (message : String)
  | nonError
deriving DecidableEq, Repr

/-- Model of `utils/ErrorHandler.ts` `handleError`: pass `McpError` through; map a
`ZodError` to `InvalidParams` with the comma-joined `path: message` list
over all issues; map known Telegram error substrings to fixed messages;
otherwise `InternalError`. -/
def ErrorHandler.handleError : ThrownValue → McpError
  | .mcpError e => e
  | .zodError e =>
    let message := String.intercalate ", "
      (e.errors.map fun err => String.intercalate "." err.path ++ ": " ++ err.message)
    { code := ErrorCode.invalidParams, message := "Validation error: " ++ message }
  | .jsError m =>
    if jsIncludes m "PHONE_NUMBER_INVALID" then
      { code := ErrorCode.invalidRequest, message := "Invalid phone number format" }
    else if jsIncludes m "CHAT_ID_INVALID" then
      { code := ErrorCode.invalidRequest, message := "Invalid chat ID" }
    else if jsIncludes m "USER_ID_INVALID" then
      { code := ErrorCode.invalidRequest, message := "Invalid user ID" }
    else if jsIncludes m "CONNECTION_NOT_INITED" then
      { code := ErrorCode.internalError, message := "Telegram connection not initialized" }
    else
      { code := ErrorCode.internalError, message := "Operation failed: " ++ m }
  | .nonError => { code := ErrorCode.internalError, message := "Unknown error occurred" }

/-- Outcome of a tool handler: rendered text, or the classified error
thrown through `ErrorHandler.withErrorHandling`. -/
inductive ToolResult where
  | ok (text : String)
  | err (e : McpError)
deriving DecidableEq, Repr

/-- The error code of a failed `ToolResult`, if any. -/
def ToolResult.errorCode : ToolResult → Option ErrorCode
  | .ok _ => none
  | .err e => some e.code

/-- One `TelegramClient` method invocation, as observed by the
repository's jest mocks; handlers report the ordered list of the calls
they make. -/
inductive ClientCall where
  | connectCall
  | getChatsCall (limit : Int)
  | getMeCall
  | getMessagesCall (chatId : String) (limit : Int) (fromMessageId : Option Int)
deriving DecidableEq, Repr

/-- Outcome of a zod `Schema.parse` call: the validated value, or the
thrown `ZodError` collecting all issues. -/
inductive Parsed (α : Type) where
  | ok (value : α)
  | invalid (e : ZodErrorData)
deriving DecidableEq, Repr

/-- Raw arguments of `list_chats` (fields absent when not supplied). -/
structure ListChatsArgs where
  limit : Option Int
deriving DecidableEq, Repr

/-- Model of `ListChatsSchema` output.  Note zod's `.default(50).optional()` wraps
the default inside `optional`, so an omitted `limit` parses to
`undefined`, not `50`; the default is applied by the handler's
`validated.limit || 50`. -/
structure ListChatsValidated where
  limit : Option Int
deriving DecidableEq, Repr

/-- Model of `ListChatsSchema.parse`: `limit` optional, bounds `[1, 200]`. -/
def ListChatsSchema.parse (args : ListChatsArgs) : Parsed ListChatsValidated :=
  match args.limit with
  | none => .ok { limit := none }
  | some v =>
    if v < 1 then
      .invalid { errors := [⟨["limit"], "Number must be greater than or equal to 1"⟩] }
    else if 200 < v then
      .invalid { errors := [⟨["limit"], "Number must be less than or equal to 200"⟩] }
    else .ok { limit := some v }

/-- Raw arguments of `search_chats`. -/
structure SearchChatsArgs where
  query : Option String
  limit : Option Int
deriving DecidableEq, Repr

/-- Model of `SearchChatsSchema` output (same `.default(20).optional()` note as
`ListChatsValidated`). -/
structure SearchChatsValidated where
  query : String
  limit : Option Int
deriving DecidableEq, Repr

/-- Model of `SearchChatsSchema.parse`: `query` required non-empty, `limit`
optional with bounds `[1, 100]`; all issues are collected. -/
def SearchChatsSchema.parse (args : SearchChatsArgs) : Parsed SearchChatsValidated :=
  let queryIssues : List ZodIssue :=
    match args.query with
    | none => [⟨["query"], "Required"⟩]
    | some q =>
      if q = "" then [⟨["query"], "String must contain at least 1 character(s)"⟩]
      else []
  let limitIssues : List ZodIssue :=
    match args.limit with
    | none => []
    | some v =>
      if v < 1 then [⟨["limit"], "Number must be greater than or equal to 1"⟩]
      else if 100 < v then [⟨["limit"], "Number must be less than or equal to 100"⟩]
      else []
  match queryIssues ++ limitIssues, args.query with
  | [], some q => .ok { query := q, limit := args.limit }
  | issues, _ =>
    if issues = [] then .invalid { errors := [⟨[], "Required"⟩] }
    else .invalid { errors := issues }

/-- Raw arguments of `get_messages`. -/
structure GetMessagesArgs where
  chatId : Option String
  limit : Option Int
  fromMessageId : Option Int
deriving DecidableEq, Repr

/-- Model of `GetMessagesSchema` output (same `.default(20).optional()` note as
`ListChatsValidated`). -/
structure GetMessagesValidated where
  chatId : String
  limit : Option Int
  fromMessageId : Option Int
deriving DecidableEq, Repr

/-- Model of `GetMessagesSchema.parse`: `chatId` required non-empty, `limit`
optional with bounds `[1, 100]`, `fromMessageId` optional; all issues are
collected. -/
def GetMessagesSchema.parse (args : GetMessagesArgs) : Parsed GetMessagesValidated :=
  let chatIdIssues : List ZodIssue :=
    match args.chatId with
    | none => [⟨["chatId"], "Required"⟩]
    | some c =>
      if c = "" then [⟨["chatId"], "String must contain at least 1 character(s)"⟩]
      else []
  let limitIssues : List ZodIssue :=
    match args.limit with
    | none => []
    | some v =>
      if v < 1 then [⟨["limit"], "Number must be greater than or equal to 1"⟩]
      else if 100 < v then [⟨["limit"], "Number must be less than or equal to 100"⟩]
      else []
  match chatIdIssues ++ limitIssues, args.chatId with
  | [], some c => .ok { chatId := c, limit := args.limit, fromMessageId := args.fromMessageId }
  | issues, _ =>
    if issues = [] then .invalid { errors := [⟨[], "Required"⟩] }
    else .invalid { errors := issues }

/-- The string value of a `ChatInfo['type']` variant. -/
def ChatType.toStr : ChatType → String
  | .«private» => "private"
  | .group => "group"
  | .supergroup => "supergroup"
  | .channel => "channel"
  | .secret => "secret"

/-- Rendering of one chat bullet in `listChats` / `searchChats`
(`ChatHandler.ts`); the optional lines follow the source's truthiness
guards. -/
def renderChatLine (chat : ChatInfo) (withDetails : Bool) : String :=
  "• **" ++ chat.title ++ "** (" ++ chat.type.toStr ++ ")\n" ++
  "  ID: " ++ chat.id ++ "\n" ++
  (match chat.username with
   | some u => if u ≠ "" then "  Username: @" ++ u ++ "\n" else ""
   | none => "") ++
  (if withDetails then
    (if jsTruthyNum chat.memberCount then
      "  Members: " ++ toString (jsOrOptInt chat.memberCount 0) ++ "\n" else "") ++
    (match chat.description with
     | some d => if d ≠ "" then "  Description: " ++ d ++ "\n" else ""
     | none => "")
   else "")

/-- Rendering of `ChatHandler.listChats` response text. -/
def renderListChats (chats : List ChatInfo) : String :=
  "Found " ++ toString chats.length ++ " chats:\n\n" ++
  String.intercalate "\n" (chats.map (renderChatLine · true))

/-- Rendering of `ChatHandler.searchChats` response text. -/
def renderSearchChats (query : String) (chats : List ChatInfo) : String :=
  "Found " ++ toString chats.length ++ " chats matching \"" ++ query ++ "\":\n\n" ++
  String.intercalate "\n" (chats.map (renderChatLine · false))

/-- Rendering of `MessageHandler.getMessages` response text (dates are rendered by
their unix timestamp; the locale formatting of `toLocaleString` carries no
information relevant to any claim). -/
def renderGetMessages (chatId : String) (messages : List MessageInfo) : String :=
  "**Messages from chat " ++ chatId ++ ":**\n\n" ++
  String.intercalate "\n" (messages.map fun msg =>
    "**Message " ++ toString msg.id ++ "** (" ++ toString msg.date ++ ")\n" ++
    (match msg.text with | some t => t | none => "[Media message]") ++ "\n---\n")

/-- The filter predicate of `ChatHandler.searchChats`:
`chat.title.toLowerCase().includes(query.toLowerCase()) ||
 (chat.username && chat.username.toLowerCase().includes(query.toLowerCase()))`. -/
def chatMatchesQuery (chat : ChatInfo) (query : String) : Bool :=
  jsIncludes (jsToLowerCase chat.title) (jsToLowerCase query) ||
  (match chat.username with
   | some u => u ≠ "" && jsIncludes (jsToLowerCase u) (jsToLowerCase query)
   | none => false)

/-- Model of `ChatHandler.listChats`: validate, apply `validated.limit || 50`, call
`client.getChats(limit)`, render; failures are classified by
`ErrorHandler`.  Also returns the trace of client calls made. -/
def ChatHandler.listChats (env : ClientEnv) (args : ListChatsArgs) :
    ToolResult × List ClientCall :=
  match ListChatsSchema.parse args with
  | .invalid e => (.err (ErrorHandler.handleError (.zodError e)), [])
  | .ok validated =>
    let limit := jsOrOptInt validated.limit 50
    match TelegramClient.getChats env limit with
    | .exn m => (.err (ErrorHandler.handleError (.jsError m)), [.getChatsCall limit])
    | .ok chats => (.ok (renderListChats chats), [.getChatsCall limit])

/-- Model of `ChatHandler.searchChats`: validate, fetch the chat list with the
fixed internal cap `getChats(200)`, filter client-side by
`chatMatchesQuery`, truncate with `.slice(0, validated.limit || 20)`,
render.  Also returns the trace of client calls made. -/
def ChatHandler.searchChats (env : ClientEnv) (args : SearchChatsArgs) :
    ToolResult × List ClientCall :=
  match SearchChatsSchema.parse args with
  | .invalid e => (.err (ErrorHandler.handleError (.zodError e)), [])
  | .ok validated =>
    match TelegramClient.getChats env 200 with
    | .exn m => (.err (ErrorHandler.handleError (.jsError m)), [.getChatsCall 200])
    | .ok allChats =>
      let filteredChats :=
        (allChats.filter (chatMatchesQuery · validated.query)).take
          (jsOrOptInt validated.limit 20).toNat
      (.ok (renderSearchChats validated.query filteredChats), [.getChatsCall 200])

/-- Tail of `MessageHandler.getMessages` after the chat id has been
resolved: apply `validated.limit || 20`, call
`client.getMessages(chatId, limit, validated.fromMessageId)`, render
(note the heading uses the original `validated.chatId`). -/
def MessageHandler.getMessagesFetch (env : ClientEnv) (validated : GetMessagesValidated)
    (chatId : String) (callsSoFar : List ClientCall) : ToolResult × List ClientCall :=
  let limit := jsOrOptInt validated.limit 20
  let calls := callsSoFar ++ [ClientCall.getMessagesCall chatId limit validated.fromMessageId]
  match TelegramClient.getMessages env chatId limit validated.fromMessageId with
  | .exn m => (.err (ErrorHandler.handleError (.jsError m)), calls)
  | .ok messages => (.ok (renderGetMessages validated.chatId messages), calls)

/-- Model of `MessageHandler.getMessages`: validate; if `chatId` is the literal
`"me"` or `"self"`, call `client.getMe()` once and replace the chat id by
`me.id.toString()`; then fetch and render via `getMessagesFetch`.  Also
returns the trace of client calls made. -/
def MessageHandler.getMessages (env : ClientEnv) (args : GetMessagesArgs) :
    ToolResult × List ClientCall :=
  match GetMessagesSchema.parse args with
  | .invalid e => (.err (ErrorHandler.handleError (.zodError e)), [])
  | .ok validated =>
    if validated.chatId = "me" ∨ validated.chatId = "self" then
      match TelegramClient.getMe env with
      | .exn m => (.err (ErrorHandler.handleError (.jsError m)), [ClientCall.getMeCall])
      | .ok me =>
        MessageHandler.getMessagesFetch env validated (toString me.id) [ClientCall.getMeCall]
    else
      MessageHandler.getMessagesFetch env validated validated.chatId []

/-- The handler methods reachable from the dispatcher's `switch`
(`index.ts`, `setupToolHandlers`), one per registered tool name. -/
inductive HandlerMethod where
  | listChats
  | getChatInfo
  | searchChats
  | getMessages
  | sendMessage
  | searchMessagesTool
  | markAsRead
  | getUserInfo
  | getMediaContent
  | sendMedia
  | getMediaInfo
  | editMessage
  | deleteMessage
  | forwardMessage
  | getMessageContextTool
  | sendDocument
  | downloadFile
  | getFileInfo
deriving DecidableEq, Repr

/-- The 18 registered tool names, in the order of the dispatcher's
`switch` cases. -/
def registeredToolNames : List String :=
  ["list_chats", "get_chat_info", "search_chats", "get_messages", "send_message",
   "search_messages", "mark_as_read", "get_user_info", "get_media_content", "send_media",
   "get_media_info", "edit_message", "delete_message", "forward_message",
   "get_message_context", "send_document", "download_file", "get_file_info"]

/-- The dispatcher's `switch (name)`: route a tool name to its handler
method, or nothing for the `default` case. -/
def routeTool (name : String) : Option HandlerMethod :=
  if name = "list_chats" then some .listChats
  else if name = "get_chat_info" then some .getChatInfo
  else if name = "search_chats" then some .searchChats
  else if name = "get_messages" then some .getMessages
  else if name = "send_message" then some .sendMessage
  else if name = "search_messages" then some .searchMessagesTool
  else if name = "mark_as_read" then some .markAsRead
  else if name = "get_user_info" then some .getUserInfo
  else if name = "get_media_content" then some .getMediaContent
  else if name = "send_media" then some .sendMedia
  else if name = "get_media_info" then some .getMediaInfo
  else if name = "edit_message" then some .editMessage
  else if name = "delete_message" then some .deleteMessage
  else if name = "forward_message" then some .forwardMessage
  else if name = "get_message_context" then some .getMessageContextTool
  else if name = "send_document" then some .sendDocument
  else if name = "download_file" then some .downloadFile
  else if name = "get_file_info" then some .getFileInfo
  else none

/-- Server state of `TelegramMCPServer`: whether the lazily-constructed
`TelegramClient` (and handler group) already exists. -/
structure ServerState where
  clientInitialized : Bool
deriving DecidableEq, Repr

/-- Observable outcome of one `CallToolRequest` dispatch: the handler
method routed to (if any), the `McpError` thrown by the `default` case
(if any), and the `TelegramClient` calls the dispatcher itself performed. -/
structure DispatchOutcome where
  routed : Option HandlerMethod
  error : Option McpError
  clientCalls : List ClientCall
deriving DecidableEq, Repr

/-- The `CallToolRequestSchema` handler of `index.ts`: it first awaits
`getTelegramClient()` — on the first invocation this constructs the
`TelegramClient` and calls `connect()` — and only then switches on the
tool name; an unrecognized name throws
`McpError(ErrorCode.MethodNotFound, "Unknown tool: " + name)`. -/
def callToolRequest (st : ServerState) (name : String) : DispatchOutcome × ServerState :=
  let initCalls : List ClientCall :=
    if st.clientInitialized then [] else [ClientCall.connectCall]
  let st2 : ServerState := { clientInitialized := true }
  match routeTool name with
  | some h => ({ routed := some h, error := none, clientCalls := initCalls }, st2)
  | none =>
    ({ routed := none
       error := some { code := ErrorCode.methodNotFound, message := "Unknown tool: " ++ name }
       clientCalls := initCalls }, st2)

/-- Lemma: `buildReplyChain` at depth `d` equals its fuel-indexed restatement
with fuel `11 - d` (stated with `d + fuel = 11` to drive the induction). -/
theorem buildReplyChain_eq_fuel (env : ClientEnv) (chatId : String) :
    ∀ (fuel depth : Nat) (id : Int), depth + fuel = 11 →
      TelegramClient.buildReplyChain env chatId id depth =
        buildReplyChainFuel env chatId id fuel := by
  intro fuel
  induction fuel with
  | zero =>
    intro depth id h
    have hd : depth > 10 := by omega
    unfold TelegramClient.buildReplyChain
    simp [hd, buildReplyChainFuel]
  | succ n ih =>
    intro depth id h
    have hd : ¬ depth > 10 := by omega
    unfold TelegramClient.buildReplyChain
    rw [dif_neg hd]
    cases hm : env.message (parseIntStr chatId) id with
    | exn m => simp [buildReplyChainFuel, hm]
    | ok replyMessage =>
      simp only [buildReplyChainFuel, hm]
      by_cases hr : replyMessage.reply_to_message_id = 0
      · simp [hr]
      · simp [hr, ih (depth + 1) replyMessage.reply_to_message_id (by omega)]

/-- The walk from its start depth 0 runs with fuel 11. -/
theorem buildReplyChain_zero (env : ClientEnv) (chatId : String) (id : Int) :
    TelegramClient.buildReplyChain env chatId id 0 = buildReplyChainFuel env chatId id 11 :=
  buildReplyChain_eq_fuel env chatId 11 0 id rfl

/-- Lemma: `getMessageContext` with the reply-chain walk expressed through
`buildReplyChainFuel` (fuel 11, corresponding to the start depth 0). -/
theorem getMessageContext_eq_fuel (env : ClientEnv) (chatId : String) (messageId : Int)
    (includeReplies includeThread : Bool) :
    TelegramClient.getMessageContext env chatId messageId includeReplies includeThread =
      (match env.message (parseIntStr chatId) messageId with
       | .exn m => .exn m
       | .ok message =>
         .ok { message := TelegramClient.formatMessageInfo message chatId
               replyChain :=
                 if includeReplies && message.reply_to_message_id ≠ 0 then
                   buildReplyChainFuel env chatId message.reply_to_message_id 11
                 else []
               thread :=
                 if includeThread && message.message_thread_id ≠ 0 then
                   some (TelegramClient.getThreadMessages env chatId message.message_thread_id)
                 else none }) := by
  unfold TelegramClient.getMessageContext
  simp only [buildReplyChain_zero]

/-- If the reply-to chain starting at `id` has at least `fuel` fetchable
ancestors, the fuel-indexed walk returns exactly `fuel` entries. -/
theorem buildReplyChainFuel_length (env : ClientEnv) (chatId : String) :
    ∀ (fuel : Nat) (id : Int),
      (replyAncestors env (parseIntStr chatId) id fuel).length = fuel →
      (buildReplyChainFuel env chatId id fuel).length = fuel := by
  intro fuel
  induction fuel with
  | zero => intro id _; rfl
  | succ n ih =>
    intro id h
    rw [replyAncestors] at h
    rw [buildReplyChainFuel]
    cases hm : env.message (parseIntStr chatId) id with
    | exn m => rw [hm] at h; simp at h
    | ok m =>
      rw [hm] at h
      by_cases hr : m.reply_to_message_id = 0
      · simp [hr] at h ⊢
        omega
      · simp [hr] at h ⊢
        exact ih m.reply_to_message_id h

/-- A raw message in the concrete linear reply chain: message `i` replies
to message `i - 1` (message 1 replies to nothing, since `0` is the tdlib
"no reply" value). -/
def linearMessage (i : Int) : RawMessage :=
  { id := i
    date := i
    is_outgoing := false
    edit_date := none
    can_be_edited := false
    can_be_deleted_only_for_self := false
    can_be_deleted_for_all_users := true
    sender_id := none
    content := .noContent
    reply_to_message_id := i - 1
    message_thread_id := 0 }

/-- Concrete environment for the claim scenario M1←M2←...←M12: chat 777
holds messages 1..12, each replying to its predecessor; every other fetch
fails. -/
def linearEnv12 : ClientEnv :=
  { chatIds := fun _ => .exn "unused"
    chat := fun _ => .exn "unused"
    me := .exn "unused"
    history := fun _ _ _ => .exn "unused"
    searchChat := fun _ _ _ => .exn "unused"
    message := fun chatId id =>
      if chatId = 777 ∧ 1 ≤ id ∧ id ≤ 12 then .ok (linearMessage id)
      else .exn "message not found"
    thread := fun _ _ => .exn "unused" }

set_option maxHeartbeats 1600000 in
/-- C1, counterexample: for the 12-message linear chain M1←M2←...←M12,
`get_message_context(M12, includeReplies=true)` returns a reply chain of
11 entries, not the 10 the claim states — the guard `depth > 10` admits
recursion depths 0 through 10, i.e. 11 ancestor fetches. -/
theorem C1_counterexample :
    replyChainLength (TelegramClient.getMessageContext linearEnv12 "777" 12 true false) =
      some 11 ∧
    replyChainLength (TelegramClient.getMessageContext linearEnv12 "777" 12 true false) ≠
      some 10 := by
  rw [getMessageContext_eq_fuel]
  constructor <;> decide

/-- C1 (amended): for every message whose reply-to chain contains at
least 11 fetchable ancestors, `get_message_context` with
`includeReplies=true` returns a reply chain of exactly 11 entries: the
recursive walk over reply pointers stops once the depth counter exceeds
10 (admitting depths 0..10), and returns the accumulated partial chain
rather than an error. -/
theorem C1_reply_chain_depth_cap (env : ClientEnv) (chatId : String) (messageId : Int)
    (M : RawMessage) (hM : env.message (parseIntStr chatId) messageId = .ok M)
    (hr : M.reply_to_message_id ≠ 0)
    (ha : (replyAncestors env (parseIntStr chatId) M.reply_to_message_id 11).length = 11) :
    replyChainLength (TelegramClient.getMessageContext env chatId messageId true false) =
      some 11 := by
  rw [getMessageContext_eq_fuel]
  simp only [hM]
  simp [replyChainLength, hr, buildReplyChainFuel_length env chatId 11 M.reply_to_message_id ha]

set_option maxHeartbeats 1600000 in
/-- C1, witness: the amended theorem applied to the concrete 12-message
linear chain. -/
theorem C1_reply_chain_depth_cap_witness :
    replyChainLength (TelegramClient.getMessageContext linearEnv12 "777" 12 true false) =
      some 11 :=
  C1_reply_chain_depth_cap linearEnv12 "777" 12 (linearMessage 12) (by decide) (by decide)
    (by decide)

/-- C2, counterexample: dispatching the unregistered tool name
`"definitely_not_a_tool"` on a fresh server state does throw
`MethodNotFound`, but the claim's other half fails: a `MessagingClient`
method IS invoked, because the dispatcher awaits the lazy
client-construction (which calls `connect()`) before it switches on the
tool name. -/
theorem C2_counterexample :
    (callToolRequest { clientInitialized := false } "definitely_not_a_tool").1.error =
      some { code := ErrorCode.methodNotFound,
             message := "Unknown tool: definitely_not_a_tool" } ∧
    (callToolRequest { clientInitialized := false } "definitely_not_a_tool").1.clientCalls =
      [ClientCall.connectCall] := by
  constructor <;> rfl

/-- C2 (amended): for every tool-call request whose tool name is not one
of the 18 registered tool names, the dispatcher throws the
`MethodNotFound` error kind and routes to no handler method (so no
messaging operation is invoked) — but the lazily-constructed client is
still created and connected before dispatch, so on a fresh state the
`connect` call is the only client call made. -/
theorem C2_unknown_tool_method_not_found :
    (∀ name : String, (routeTool name = none ↔ name ∉ registeredToolNames)) ∧
    registeredToolNames.length = 18 ∧
    (∀ (st : ServerState) (name : String), routeTool name = none →
      (callToolRequest st name).1.error =
        some { code := ErrorCode.methodNotFound, message := "Unknown tool: " ++ name } ∧
      (callToolRequest st name).1.routed = none ∧
      (callToolRequest st name).1.clientCalls =
        (if st.clientInitialized then [] else [ClientCall.connectCall])) := by
  refine ⟨?_, rfl, ?_⟩
  · intro name
    constructor
    · intro hnone hmem
      simp only [registeredToolNames, List.mem_cons, List.not_mem_nil, or_false] at hmem
      rcases hmem with rfl|rfl|rfl|rfl|rfl|rfl|rfl|rfl|rfl|rfl|rfl|rfl|rfl|rfl|rfl|rfl|rfl|rfl <;>
        revert hnone <;> decide
    · intro hmem
      unfold routeTool
      rw [if_neg (fun (h : name = "list_chats") => hmem (by rw [h]; decide))]
      rw [if_neg (fun (h : name = "get_chat_info") => hmem (by rw [h]; decide))]
      rw [if_neg (fun (h : name = "search_chats") => hmem (by rw [h]; decide))]
      rw [if_neg (fun (h : name = "get_messages") => hmem (by rw [h]; decide))]
      rw [if_neg (fun (h : name = "send_message") => hmem (by rw [h]; decide))]
      rw [if_neg (fun (h : name = "search_messages") => hmem (by rw [h]; decide))]
      rw [if_neg (fun (h : name = "mark_as_read") => hmem (by rw [h]; decide))]
      rw [if_neg (fun (h : name = "get_user_info") => hmem (by rw [h]; decide))]
      rw [if_neg (fun (h : name = "get_media_content") => hmem (by rw [h]; decide))]
      rw [if_neg (fun (h : name = "send_media") => hmem (by rw [h]; decide))]
      rw [if_neg (fun (h : name = "get_media_info") => hmem (by rw [h]; decide))]
      rw [if_neg (fun (h : name = "edit_message") => hmem (by rw [h]; decide))]
      rw [if_neg (fun (h : name = "delete_message") => hmem (by rw [h]; decide))]
      rw [if_neg (fun (h : name = "forward_message") => hmem (by rw [h]; decide))]
      rw [if_neg (fun (h : name = "get_message_context") => hmem (by rw [h]; decide))]
      rw [if_neg (fun (h : name = "send_document") => hmem (by rw [h]; decide))]
      rw [if_neg (fun (h : name = "download_file") => hmem (by rw [h]; decide))]
      rw [if_neg (fun (h : name = "get_file_info") => hmem (by rw [h]; decide))]
  · intro st name hn
    unfold callToolRequest
    rw [hn]
    exact ⟨rfl, rfl, rfl⟩

/-- C2, witness: the amended theorem applied to the name
`"no_such_tool"` on a fresh server state. -/
theorem C2_unknown_tool_method_not_found_witness :
    (callToolRequest { clientInitialized := false } "no_such_tool").1.error =
      some { code := ErrorCode.methodNotFound, message := "Unknown tool: " ++ "no_such_tool" } ∧
    (callToolRequest { clientInitialized := false } "no_such_tool").1.routed = none ∧
    (callToolRequest { clientInitialized := false } "no_such_tool").1.clientCalls =
      (if ({ clientInitialized := false } : ServerState).clientInitialized then []
       else [ClientCall.connectCall]) :=
  C2_unknown_tool_method_not_found.2.2 { clientInitialized := false } "no_such_tool" (by decide)

/-- A chat whose per-chat search throws contributes nothing to the
fan-out loop: the loop's result is identical to running it on the chat
list with that chat removed, for any accumulator state. -/
theorem globalSearchLoop_skip_aux (env : ClientEnv) (query : String) (limit : Int)
    (c : ChatInfo)
    (hfail : (env.searchChat (parseIntStr c.id) query (min limit 10)).isThrown = true) :
    ∀ (pre post : List ChatInfo) (acc : List MessageInfo) (tf : Int),
      TelegramClient.globalSearchLoop env query limit (pre ++ c :: post) acc tf =
        TelegramClient.globalSearchLoop env query limit (pre ++ post) acc tf := by
  intro pre
  induction pre with
  | nil =>
    intro post acc tf
    simp only [List.nil_append]
    cases he : env.searchChat (parseIntStr c.id) query (min limit 10) with
    | exn m => simp [TelegramClient.globalSearchLoop, he]
    | ok r => rw [he] at hfail; simp [JsResult.isThrown] at hfail
  | cons p pre ih =>
    intro post acc tf
    simp only [List.cons_append]
    cases hp : env.searchChat (parseIntStr p.id) query (min limit 10) with
    | exn m => simp [TelegramClient.globalSearchLoop, hp, ih]
    | ok r =>
      simp only [TelegramClient.globalSearchLoop, hp]
      split
      · rfl
      · exact ih post _ _

/-- C3: in unscoped `search_messages` (no `chatId`), once the recent-chat
list has been fetched no error is raised — the result is the fan-out
loop's accumulation over the first 10 recent chats, truncated to
`limit` — and a chat whose per-chat search throws is skipped: the
aggregate is exactly what the remaining chats accumulate (the loop result
equals the loop over the list with the failing chat removed). -/
theorem C3_unscoped_search_skips_failing_chat (env : ClientEnv) (query : String)
    (limit : Int) (ids : List Int) (hids : env.chatIds 20 = .ok ids)
    (pre post : List ChatInfo) (c : ChatInfo)
    (hfail : (env.searchChat (parseIntStr c.id) query (min limit 10)).isThrown = true) :
    (TelegramClient.searchMessages env query none limit =
      .ok { messages :=
              (TelegramClient.globalSearchLoop env query limit
                ((TelegramClient.getChatsLoop env ids).take 10) [] 0).1.take limit.toNat
            totalCount :=
              (TelegramClient.globalSearchLoop env query limit
                ((TelegramClient.getChatsLoop env ids).take 10) [] 0).2 }) ∧
    TelegramClient.globalSearchLoop env query limit (pre ++ c :: post) [] 0 =
      TelegramClient.globalSearchLoop env query limit (pre ++ post) [] 0 := by
  constructor
  · simp [TelegramClient.searchMessages, TelegramClient.getChats, hids]
  · exact globalSearchLoop_skip_aux env query limit c hfail pre post [] 0

/-- Raw chat fixture for the search scenario. -/
def plainChat (i : Int) : RawChat :=
  { id := i
    title := some ("chat " ++ toString i)
    type := some { tag := "chatTypePrivate", is_channel := false, username := none }
    member_count := none
    description := none }

/-- Formatted chat fixture for the search scenario. -/
def plainChatInfo (i : Int) : ChatInfo := TelegramClient.formatChatInfo (plainChat i)

/-- Raw message fixture: the single search hit reported by chat `i`. -/
def searchHit (i : Int) : RawMessage :=
  { id := 100 + i
    date := i
    is_outgoing := false
    edit_date := none
    can_be_edited := false
    can_be_deleted_only_for_self := false
    can_be_deleted_for_all_users := false
    sender_id := none
    content := .text "hello"
    reply_to_message_id := 0
    message_thread_id := 0 }

/-- Concrete environment for the C3 scenario: 10 recent chats with ids
1..10; the per-chat search of chat 4 throws, every other chat reports one
hit. -/
def searchEnv10 : ClientEnv :=
  { chatIds := fun limit => if limit = 20 then .ok [1, 2, 3, 4, 5, 6, 7, 8, 9, 10]
      else .exn "unused"
    chat := fun id => if 1 ≤ id ∧ id ≤ 10 then .ok (plainChat id) else .exn "unused"
    me := .exn "unused"
    history := fun _ _ _ => .exn "unused"
    searchChat := fun chatId _ _ =>
      if chatId = 4 then .exn "search failed"
      else .ok { messages := [searchHit chatId], total_count := 1 }
    message := fun _ _ => .exn "unused"
    thread := fun _ _ => .exn "unused" }

set_option maxHeartbeats 1600000 in
/-- C3, witness: the theorem applied to the concrete 10-chat scenario in
which chat 4 of the first 10 recent chats throws on search. -/
theorem C3_unscoped_search_skips_failing_chat_witness :
    (TelegramClient.searchMessages searchEnv10 "hello" none 20 =
      .ok { messages :=
              (TelegramClient.globalSearchLoop searchEnv10 "hello" 20
                ((TelegramClient.getChatsLoop searchEnv10
                  [1, 2, 3, 4, 5, 6, 7, 8, 9, 10]).take 10) [] 0).1.take (20 : Int).toNat
            totalCount :=
              (TelegramClient.globalSearchLoop searchEnv10 "hello" 20
                ((TelegramClient.getChatsLoop searchEnv10
                  [1, 2, 3, 4, 5, 6, 7, 8, 9, 10]).take 10) [] 0).2 }) ∧
    TelegramClient.globalSearchLoop searchEnv10 "hello" 20
      ([plainChatInfo 1, plainChatInfo 2, plainChatInfo 3] ++ plainChatInfo 4 ::
        [plainChatInfo 5, plainChatInfo 6, plainChatInfo 7, plainChatInfo 8,
         plainChatInfo 9, plainChatInfo 10]) [] 0 =
    TelegramClient.globalSearchLoop searchEnv10 "hello" 20
      ([plainChatInfo 1, plainChatInfo 2, plainChatInfo 3] ++
        [plainChatInfo 5, plainChatInfo 6, plainChatInfo 7, plainChatInfo 8,
         plainChatInfo 9, plainChatInfo 10]) [] 0 :=
  C3_unscoped_search_skips_failing_chat searchEnv10 "hello" 20
    [1, 2, 3, 4, 5, 6, 7, 8, 9, 10] (by decide)
    [plainChatInfo 1, plainChatInfo 2, plainChatInfo 3]
    [plainChatInfo 5, plainChatInfo 6, plainChatInfo 7, plainChatInfo 8,
     plainChatInfo 9, plainChatInfo 10]
    (plainChatInfo 4) (by decide)

/-- The chat-detail loop of `getChats` keeps exactly the ids whose detail
fetch succeeds, in order, formatting each. -/
theorem getChatsLoop_filterMap (env : ClientEnv) :
    ∀ ids : List Int,
      TelegramClient.getChatsLoop env ids =
        ids.filterMap fun id => (env.chat id).toOption.map TelegramClient.formatChatInfo := by
  intro ids
  induction ids with
  | nil => rfl
  | cons i rest ih =>
    cases hc : env.chat i <;>
      simp [TelegramClient.getChatsLoop, hc, ih, JsResult.toOption]

/-- C9: in `list_chats` (`getChats`), once the id list has been fetched
the listing always succeeds, and a failing per-chat detail fetch is
silently skipped: the result is exactly the formatted details of the ids
whose fetch succeeded, in order. -/
theorem C9_get_chats_skips_failing_detail (env : ClientEnv) (limit : Int) (ids : List Int)
    (hids : env.chatIds limit = .ok ids) :
    TelegramClient.getChats env limit =
      .ok (ids.filterMap fun id =>
        (env.chat id).toOption.map TelegramClient.formatChatInfo) := by
  simp [TelegramClient.getChats, hids, getChatsLoop_filterMap]

/-- Concrete environment for the C9 scenario: ids 1, 2, 3 are listed but
the detail fetch of chat 2 throws. -/
def chatsEnv3 : ClientEnv :=
  { chatIds := fun limit => if limit = 50 then .ok [1, 2, 3] else .exn "unused"
    chat := fun id => if id = 2 then .exn "detail fetch failed"
      else if 1 ≤ id ∧ id ≤ 3 then .ok (plainChat id) else .exn "unused"
    me := .exn "unused"
    history := fun _ _ _ => .exn "unused"
    searchChat := fun _ _ _ => .exn "unused"
    message := fun _ _ => .exn "unused"
    thread := fun _ _ => .exn "unused" }

/-- C9, witness: with ids 1, 2, 3 and chat 2's detail fetch throwing, the
listing succeeds and returns exactly chats 1 and 3. -/
theorem C9_get_chats_skips_failing_detail_witness :
    TelegramClient.getChats chatsEnv3 50 = .ok [plainChatInfo 1, plainChatInfo 3] :=
  (C9_get_chats_skips_failing_detail chatsEnv3 50 [1, 2, 3] (by decide)).trans (by decide)

/-- C4: in `get_messages`, when the validated `chatId` is the literal
`"me"` or `"self"` and the fetch-me call succeeds with account record
`me`, the handler's client-call trace is exactly one `getMe` followed by
the message fetch whose chat id is `me.id.toString()`; for every other
`chatId` the trace is the message fetch alone — no `getMe` call. -/
theorem C4_me_alias_resolution (env : ClientEnv) (args : GetMessagesArgs)
    (v : GetMessagesValidated) (hp : GetMessagesSchema.parse args = .ok v) :
    ((v.chatId = "me" ∨ v.chatId = "self") →
      ∀ me : RawUser, env.me = .ok me →
        (MessageHandler.getMessages env args).2 =
          [ClientCall.getMeCall,
           ClientCall.getMessagesCall (toString me.id) (jsOrOptInt v.limit 20)
             v.fromMessageId]) ∧
    (v.chatId ≠ "me" → v.chatId ≠ "self" →
      (MessageHandler.getMessages env args).2 =
        [ClientCall.getMessagesCall v.chatId (jsOrOptInt v.limit 20) v.fromMessageId]) := by
  constructor
  · intro hcid me hme
    unfold MessageHandler.getMessages
    rw [hp]
    simp only [if_pos hcid]
    simp only [TelegramClient.getMe, hme]
    cases h : TelegramClient.getMessages env (toString me.id) (jsOrOptInt v.limit 20)
        v.fromMessageId <;>
      simp [MessageHandler.getMessagesFetch, h]
  · intro h1 h2
    unfold MessageHandler.getMessages
    rw [hp]
    have hcond : ¬ (v.chatId = "me" ∨ v.chatId = "self") := by simp [h1, h2]
    simp only [if_neg hcond]
    cases h : TelegramClient.getMessages env v.chatId (jsOrOptInt v.limit 20)
        v.fromMessageId <;>
      simp [MessageHandler.getMessagesFetch, h]

/-- Concrete environment for the C4 scenario: `getMe` reports account id
12345; everything else throws (the trace is recorded regardless). -/
def meEnv : ClientEnv :=
  { chatIds := fun _ => .exn "unused"
    chat := fun _ => .exn "unused"
    me := .ok { id := 12345, first_name := "Test", last_name := some "User", username := none }
    history := fun _ _ _ => .exn "history not mocked"
    searchChat := fun _ _ _ => .exn "unused"
    message := fun _ _ => .exn "unused"
    thread := fun _ _ => .exn "unused" }

/-- C4, witness: `get_messages` with `chatId = "me"` against an account
whose id is 12345 calls `getMe` once and then fetches with chat id
`"12345"` and the default limit 20; with `chatId = "123"` it fetches
directly with no `getMe`. -/
theorem C4_me_alias_resolution_witness :
    (MessageHandler.getMessages meEnv ⟨some "me", none, none⟩).2 =
      [ClientCall.getMeCall, ClientCall.getMessagesCall "12345" 20 none] ∧
    (MessageHandler.getMessages meEnv ⟨some "123", none, none⟩).2 =
      [ClientCall.getMessagesCall "123" 20 none] := by
  constructor
  · exact ((C4_me_alias_resolution meEnv ⟨some "me", none, none⟩ ⟨"me", none, none⟩
      (by decide)).1 (Or.inl rfl) ⟨12345, "Test", some "User", none⟩
      (by decide)).trans (by decide)
  · exact ((C4_me_alias_resolution meEnv ⟨some "123", none, none⟩ ⟨"123", none, none⟩
      (by decide)).2 (by decide) (by decide)).trans (by decide)

/-- C5: `search_chats` fetches the chat list with the fixed internal cap
200 and returns exactly the fetched chats matching the case-insensitive
substring predicate `chatMatchesQuery` (over title, or username when
present), truncated to the first `limit` matches (`validated.limit || 20`,
so 20 when omitted); and the predicate matches a chat titled
"Development Team" against the query "DEVELOPMENT". -/
theorem C5_search_chats_filter (env : ClientEnv) (args : SearchChatsArgs)
    (v : SearchChatsValidated) (ids : List Int)
    (hp : SearchChatsSchema.parse args = .ok v) (hc : env.chatIds 200 = .ok ids) :
    (ChatHandler.searchChats env args =
      (.ok (renderSearchChats v.query
        (((TelegramClient.getChatsLoop env ids).filter
          (chatMatchesQuery · v.query)).take (jsOrOptInt v.limit 20).toNat)),
       [ClientCall.getChatsCall 200])) ∧
    chatMatchesQuery
      { id := "42", title := "Development Team", type := ChatType.group,
        username := none, memberCount := none, description := none } "DEVELOPMENT" = true := by
  constructor
  · unfold ChatHandler.searchChats
    rw [hp]
    simp only [TelegramClient.getChats, hc]
  · decide

/-- Concrete environment for the C5 scenario: three chats, of which only
chat 1 ("Development Team") matches the query "DEVELOPMENT". -/
def devChatRaw : RawChat :=
  { id := 1
    title := some "Development Team"
    type := some { tag := "chatTypeBasicGroup", is_channel := false, username := none }
    member_count := none
    description := none }

def familyChatRaw : RawChat :=
  { id := 2
    title := some "Family"
    type := some { tag := "chatTypePrivate", is_channel := false, username := none }
    member_count := none
    description := none }

def devEnv : ClientEnv :=
  { chatIds := fun limit => if limit = 200 then .ok [1, 2] else .exn "unused"
    chat := fun id =>
      if id = 1 then .ok devChatRaw
      else if id = 2 then .ok familyChatRaw
      else .exn "unused"
    me := .exn "unused"
    history := fun _ _ _ => .exn "unused"
    searchChat := fun _ _ _ => .exn "unused"
    message := fun _ _ => .exn "unused"
    thread := fun _ _ => .exn "unused" }

set_option maxHeartbeats 1600000 in
/-- C5, witness: the theorem applied to the concrete scenario — query
"DEVELOPMENT" (uppercase) selects exactly the chat titled
"Development Team". -/
theorem C5_search_chats_filter_witness :
    (ChatHandler.searchChats devEnv ⟨some "DEVELOPMENT", none⟩ =
      (.ok (renderSearchChats "DEVELOPMENT"
        (((TelegramClient.getChatsLoop devEnv [1, 2]).filter
          (chatMatchesQuery · "DEVELOPMENT")).take (jsOrOptInt none 20).toNat)),
       [ClientCall.getChatsCall 200])) ∧
    chatMatchesQuery
      { id := "42", title := "Development Team", type := ChatType.group,
        username := none, memberCount := none, description := none } "DEVELOPMENT" = true :=
  C5_search_chats_filter devEnv ⟨some "DEVELOPMENT", none⟩
    ⟨"DEVELOPMENT", none⟩ [1, 2] (by decide) (by decide)

/-- C6: a zod validation failure is classified as `InvalidParams` and its
message carries the comma-joined `path: message` list over ALL violated
fields; in particular with two violated fields both pairs appear,
comma-joined. -/
theorem C6_zod_all_issues_joined (e : ZodErrorData) :
    (ErrorHandler.handleError (.zodError e) =
      { code := ErrorCode.invalidParams
        message := "Validation error: " ++ String.intercalate ", "
          (e.errors.map fun err =>
            String.intercalate "." err.path ++ ": " ++ err.message) }) ∧
    (∀ i1 i2 : ZodIssue,
      ErrorHandler.handleError (.zodError { errors := [i1, i2] }) =
        { code := ErrorCode.invalidParams
          message := "Validation error: " ++
            ((String.intercalate "." i1.path ++ ": " ++ i1.message) ++ ", " ++
             (String.intercalate "." i2.path ++ ": " ++ i2.message)) }) := by
  constructor
  · rfl
  · intro i1 i2
    show ErrorHandler.handleError _ = _
    unfold ErrorHandler.handleError
    simp [String.intercalate, String.intercalate.go]

/-- C6, witness: a concrete two-field failure (missing `chatId`,
out-of-range `limit`) produces `InvalidParams` with both pairs
comma-joined in the message. -/
theorem C6_zod_all_issues_joined_witness :
    ErrorHandler.handleError (.zodError { errors :=
      [{ path := ["chatId"], message := "Required" },
       { path := ["limit"], message := "Number must be less than or equal to 100" }] }) =
      { code := ErrorCode.invalidParams
        message := "Validation error: chatId: Required, limit: Number must be less than or equal to 100" } :=
  ((C6_zod_all_issues_joined { errors :=
      [{ path := ["chatId"], message := "Required" },
       { path := ["limit"], message := "Number must be less than or equal to 100" }] }).2
    { path := ["chatId"], message := "Required" }
    { path := ["limit"], message := "Number must be less than or equal to 100" }).trans
    (by decide)

/-- C7: for the bounded numeric `limit` of `list_chats` (bounds [1,200],
default 50) and `get_messages` (bounds [1,100], default 20): every value
outside the bound is rejected as `InvalidParams` with no client call
made; every value inside the bound is passed through unchanged to the
client call; an omitted `limit` results in the declared default being
passed — and since in-bound values pass through unchanged, the default is
never substituted for an explicitly provided valid value. -/
theorem C7_limit_bounds (env : ClientEnv) :
    (∀ v : Int, v < 1 ∨ 200 < v →
      (ChatHandler.listChats env ⟨some v⟩).2 = [] ∧
      (ChatHandler.listChats env ⟨some v⟩).1.errorCode = some ErrorCode.invalidParams) ∧
    (∀ v : Int, 1 ≤ v → v ≤ 200 →
      (ChatHandler.listChats env ⟨some v⟩).2 = [ClientCall.getChatsCall v]) ∧
    ((ChatHandler.listChats env ⟨none⟩).2 = [ClientCall.getChatsCall 50]) ∧
    (∀ (c : String) (fm : Option Int) (v : Int), c ≠ "" → c ≠ "me" → c ≠ "self" →
      (v < 1 ∨ 100 < v →
        (MessageHandler.getMessages env ⟨some c, some v, fm⟩).2 = [] ∧
        (MessageHandler.getMessages env ⟨some c, some v, fm⟩).1.errorCode =
          some ErrorCode.invalidParams) ∧
      (1 ≤ v → v ≤ 100 →
        (MessageHandler.getMessages env ⟨some c, some v, fm⟩).2 =
          [ClientCall.getMessagesCall c v fm])) ∧
    (∀ (c : String) (fm : Option Int), c ≠ "" → c ≠ "me" → c ≠ "self" →
      (MessageHandler.getMessages env ⟨some c, none, fm⟩).2 =
        [ClientCall.getMessagesCall c 20 fm]) := by
  refine ⟨?_, ?_, ?_, ?_, ?_⟩
  · intro v hv
    unfold ChatHandler.listChats ListChatsSchema.parse
    rcases hv with hlt | hgt
    · simp [hlt, ToolResult.errorCode, ErrorHandler.handleError]
    · have hnlt : ¬ v < 1 := by omega
      simp [hnlt, hgt, ToolResult.errorCode, ErrorHandler.handleError]
  · intro v h1 h2
    have hnlt : ¬ v < 1 := by omega
    have hngt : ¬ 200 < v := by omega
    have hne : v ≠ 0 := by omega
    unfold ChatHandler.listChats ListChatsSchema.parse
    simp only [hnlt, hngt, if_false]
    simp [jsOrOptInt, hne]
    cases hg : TelegramClient.getChats env v <;> simp [hg]
  · unfold ChatHandler.listChats ListChatsSchema.parse
    simp [jsOrOptInt]
    cases hg : TelegramClient.getChats env 50 <;> simp [hg]
  · intro c fm v hc hme hself
    constructor
    · intro hv
      unfold MessageHandler.getMessages GetMessagesSchema.parse
      rcases hv with hlt | hgt
      · simp [hc, hlt, ToolResult.errorCode, ErrorHandler.handleError]
      · have hnlt : ¬ v < 1 := by omega
        simp [hc, hnlt, hgt, ToolResult.errorCode, ErrorHandler.handleError]
    · intro h1 h2
      have hnlt : ¬ v < 1 := by omega
      have hngt : ¬ 100 < v := by omega
      have hne : v ≠ 0 := by omega
      have hcond : ¬ (c = "me" ∨ c = "self") := by simp [hme, hself]
      unfold MessageHandler.getMessages GetMessagesSchema.parse
      simp [hc, hnlt, hngt, hcond, jsOrOptInt, hne]
      cases hg : TelegramClient.getMessages env c v fm <;>
        simp [MessageHandler.getMessagesFetch, jsOrOptInt, hne, hg]
  · intro c fm hc hme hself
    have hcond : ¬ (c = "me" ∨ c = "self") := by simp [hme, hself]
    unfold MessageHandler.getMessages GetMessagesSchema.parse
    simp [hc, hcond, jsOrOptInt]
    cases hg : TelegramClient.getMessages env c 20 fm <;>
      simp [MessageHandler.getMessagesFetch, jsOrOptInt, hg]

/-- C7, witness: the bound checks evaluated against a fully concrete
environment — 201 and 0 are rejected without a client call, 50 and 7 pass
through unchanged, omission yields the defaults 50 and 20. -/
theorem C7_limit_bounds_witness :
    ((ChatHandler.listChats meEnv ⟨some 201⟩).2 = [] ∧
     (ChatHandler.listChats meEnv ⟨some 201⟩).1.errorCode = some ErrorCode.invalidParams) ∧
    (ChatHandler.listChats meEnv ⟨some 50⟩).2 = [ClientCall.getChatsCall 50] ∧
    (ChatHandler.listChats meEnv ⟨none⟩).2 = [ClientCall.getChatsCall 50] ∧
    ((MessageHandler.getMessages meEnv ⟨some "123", some 0, none⟩).2 = [] ∧
     (MessageHandler.getMessages meEnv ⟨some "123", some 0, none⟩).1.errorCode =
       some ErrorCode.invalidParams) ∧
    (MessageHandler.getMessages meEnv ⟨some "123", some 7, none⟩).2 =
      [ClientCall.getMessagesCall "123" 7 none] ∧
    (MessageHandler.getMessages meEnv ⟨some "123", none, none⟩).2 =
      [ClientCall.getMessagesCall "123" 20 none] := by
  obtain ⟨h1, h2, h3, h4, h5⟩ := C7_limit_bounds meEnv
  exact ⟨h1 201 (by omega),
         h2 50 (by omega) (by omega),
         h3,
         (h4 "123" none 0 (by decide) (by decide) (by decide)).1 (by omega),
         (h4 "123" none 7 (by decide) (by decide) (by decide)).2 (by omega) (by omega),
         h5 "123" none (by decide) (by decide) (by decide)⟩

/-- C8: the chat type produced by the raw-record translation — `ChatInfo`
gets exactly `getChatType chat.type`, whose codomain is the closed
five-variant `ChatType`; an absent or unrecognized remote variant maps to
`private`, and a supergroup flagged `is_channel` maps to `channel`. -/
theorem C8_chat_type_invariant (chat : RawChat) (t : RawChatType) (u : Option String) :
    ((TelegramClient.formatChatInfo chat).type = TelegramClient.getChatType chat.type) ∧
    (TelegramClient.getChatType none = ChatType.«private») ∧
    (t.tag ≠ "chatTypePrivate" → t.tag ≠ "chatTypeBasicGroup" →
      t.tag ≠ "chatTypeSupergroup" → t.tag ≠ "chatTypeSecret" →
      TelegramClient.getChatType (some t) = ChatType.«private») ∧
    (TelegramClient.getChatType
      (some { tag := "chatTypeSupergroup", is_channel := true, username := u }) =
      ChatType.channel) := by
  refine ⟨?_, rfl, ?_, ?_⟩
  · simp only [TelegramClient.formatChatInfo]
    repeat' split
    all_goals rfl
  · intro h1 h2 h3 h4
    simp [TelegramClient.getChatType, h1, h2, h3, h4]
  · simp [TelegramClient.getChatType]

/-- C8, witness: the theorem applied to a chat carrying the unrecognized
remote variant `chatTypeForum`, which maps to `private`. -/
theorem C8_chat_type_invariant_witness :
    TelegramClient.getChatType
      (some { tag := "chatTypeForum", is_channel := false, username := none }) =
      ChatType.«private» :=
  (C8_chat_type_invariant
    { id := 1, title := none, type := none, member_count := none, description := none }
    { tag := "chatTypeForum", is_channel := false, username := none } none).2.2.1
    (by decide) (by decide) (by decide) (by decide)

/-- C10: in the raw-record-to-`MessageInfo` translation, the `isEdited`
flag is true exactly when the raw record carries a nonzero `edit_date`;
`editDate` copies the raw `edit_date` unchanged; hence `isEdited` implies
`editDate` is present. -/
theorem C10_edit_metadata (m : RawMessage) (chatId : String) :
    ((TelegramClient.formatMessageInfo m chatId).isEdited = true ↔
      ∃ d : Int, m.edit_date = some d ∧ d ≠ 0) ∧
    (TelegramClient.formatMessageInfo m chatId).editDate = m.edit_date ∧
    ((TelegramClient.formatMessageInfo m chatId).isEdited = true →
      (TelegramClient.formatMessageInfo m chatId).editDate.isSome = true) := by
  have key : (TelegramClient.formatMessageInfo m chatId).isEdited = true ↔
      ∃ d : Int, m.edit_date = some d ∧ d ≠ 0 := by
    simp only [TelegramClient.formatMessageInfo, jsTruthyNum]
    cases m.edit_date <;> simp
  refine ⟨key, rfl, ?_⟩
  intro h
  obtain ⟨d, hd, _⟩ := key.mp h
  simp [TelegramClient.formatMessageInfo, hd]

/-- Raw message fixture for C10: carries the edit timestamp 1700000000. -/
def editedMessage : RawMessage :=
  { id := 5
    date := 1690000000
    is_outgoing := true
    edit_date := some 1700000000
    can_be_edited := true
    can_be_deleted_only_for_self := false
    can_be_deleted_for_all_users := false
    sender_id := none
    content := .text "edited text"
    reply_to_message_id := 0
    message_thread_id := 0 }

/-- C10, witness: the theorem applied to a concretely edited message —
`isEdited` is true and `editDate` carries the raw timestamp. -/
theorem C10_edit_metadata_witness :
    (TelegramClient.formatMessageInfo editedMessage "1").isEdited = true ∧
    (TelegramClient.formatMessageInfo editedMessage "1").editDate = some 1700000000 :=
  ⟨(C10_edit_metadata editedMessage "1").1.mpr ⟨1700000000, rfl, by decide⟩,
   ((C10_edit_metadata editedMessage "1").2.1).trans rfl⟩
